import Mathlib

/-!
# Verification of the MCP gateway core (`src/mcp-gateway/gateway_server.py`, `ui.py`)

A shallow embedding of the gateway's state store, metrics recorder, health
prober, configuration loader, status endpoints and connection tracker.

Modelling conventions:
* A Python `dict` keyed by strings is an association list `List (String × α)`;
  item assignment (`d[k] = v`) updates in place when the key exists and
  appends otherwise, matching insertion-ordered Python dicts.
* A Python dict used as a record with possibly-missing keys (the metrics
  records) is a structure of `Option` fields; a read of a missing key
  (Python `KeyError`) makes the enclosing operation return `none`.
* Wall-clock instants and millisecond latencies are integers, passed in
  explicitly where the source calls `utc_now()` / `time.time()`.
* Network effects (health probes, proxy mounting, module imports) are
  oracles passed in as parameters: a probe yields either an HTTP status
  code or a transport failure; a mount attempt either succeeds or raises.
-/

namespace Gateway

/-- Python `d.get(k)` / `k in d` on a string-keyed dict. -/
def dictGet (d : List (String × α)) (k : String) : Option α :=
  match d.find? (fun p => p.1 == k) with
  | some p => some p.2
  | none => none

/-- Python `d[k] = v`: replace in place when present, append otherwise. -/
def dictSet (d : List (String × α)) (k : String) (v : α) : List (String × α) :=
  if d.any (fun p => p.1 == k) then
    d.map (fun p => if p.1 == k then (k, v) else p)
  else
    d ++ [(k, v)]

theorem dictGet_nil (k : String) : dictGet ([] : List (String × α)) k = none := rfl

theorem dictGet_cons (p : String × α) (d : List (String × α)) (k : String) :
    dictGet (p :: d) k = if p.1 = k then some p.2 else dictGet d k := by
  by_cases h : p.1 = k
  · simp [dictGet, List.find?, h]
  · simp only [dictGet, List.find?]
    have hb : (p.1 == k) = false := by simp [h]
    simp [hb, h]

theorem dictGet_replace_self (d : List (String × α)) (k : String) (v : α)
    (hmem : d.any (fun p => p.1 == k)) :
    dictGet (d.map (fun p => if p.1 == k then (k, v) else p)) k = some v := by
  induction d with
  | nil => simp at hmem
  | cons p d ih =>
    by_cases hp : p.1 = k
    · simp [dictGet_cons, hp]
    · have hb : (p.1 == k) = false := by simp [hp]
      have hrest : d.any (fun q => q.1 == k) := by
        simp only [List.any_cons, Bool.or_eq_true] at hmem
        exact hmem.resolve_left (by simp [hp])
      simpa [dictGet_cons, hb, hp] using ih hrest

theorem dictGet_replace_ne (d : List (String × α)) (k k' : String) (v : α)
    (h : k' ≠ k) :
    dictGet (d.map (fun p => if p.1 == k then (k, v) else p)) k' = dictGet d k' := by
  induction d with
  | nil => rfl
  | cons p d ih =>
    simp only [List.map_cons]
    by_cases hp : p.1 = k
    · have hb : (p.1 == k) = true := by simp [hp]
      have hk : ¬ ((k, v) : String × α).1 = k' := fun hh => h hh.symm
      have hpk : ¬ p.1 = k' := by rw [hp]; exact fun hh => h hh.symm
      rw [if_pos hb, dictGet_cons, dictGet_cons, if_neg hk, if_neg hpk]
      exact ih
    · have hb : ¬ ((p.1 == k) = true) := by simp [hp]
      rw [if_neg hb, dictGet_cons, dictGet_cons]
      by_cases hq : p.1 = k'
      · rw [if_pos hq, if_pos hq]
      · rw [if_neg hq, if_neg hq]; exact ih

theorem dictGet_append_single (d : List (String × α)) (k k' : String) (v : α) :
    dictGet (d ++ [(k, v)]) k' =
      (dictGet d k').orElse (fun _ => if k = k' then some v else none) := by
  induction d with
  | nil => by_cases hk : k = k' <;> simp [dictGet_cons, hk, Option.orElse, dictGet_nil]
  | cons p d ih =>
    by_cases hq : p.1 = k'
    · simp [dictGet_cons, hq, Option.orElse]
    · simpa [dictGet_cons, hq] using ih

theorem dictGet_dictSet_self (d : List (String × α)) (k : String) (v : α) :
    dictGet (dictSet d k v) k = some v := by
  unfold dictSet
  by_cases hmem : d.any (fun p => p.1 == k)
  · simpa [hmem] using dictGet_replace_self d k v hmem
  · have hnone : dictGet d k = none := by
      induction d with
      | nil => rfl
      | cons p d ih =>
        simp only [List.any_cons, Bool.or_eq_true, not_or] at hmem
        have hp : ¬ p.1 = k := by simpa using hmem.1
        simpa [dictGet_cons, hp] using ih (by simpa using hmem.2)
    rw [if_neg hmem, dictGet_append_single, hnone]
    simp [Option.orElse]

theorem dictGet_dictSet_ne (d : List (String × α)) (k k' : String) (v : α)
    (h : k' ≠ k) : dictGet (dictSet d k v) k' = dictGet d k' := by
  unfold dictSet
  by_cases hmem : d.any (fun p => p.1 == k)
  · simpa [hmem] using dictGet_replace_ne d k k' v h
  · have hk : ¬ k = k' := fun hh => h hh.symm
    rw [if_neg hmem, dictGet_append_single]
    cases hd : dictGet d k' with
    | none => simp [Option.orElse, hk]
    | some w => simp [Option.orElse]

/-! ## Data model (`gateway_server.py`) -/

/-- The `auth` object of a proxy entry (`{"type": ..., "token": ...}`).
Fields are `Option` because the Python dict may lack either key
(`auth["type"]` / `auth["token"]` then raise `KeyError`). -/
structure AuthSpec where
  atype : Option String := none
  token : Option String := none
deriving DecidableEq, Repr

/-- One entry of `config["child_servers"]`, as read by `load_child_servers`.
`Option` fields model possibly-missing dict keys.  `mount_ok` is the oracle
for the externally-determined outcome of the mount attempt (`ProxyClient`
construction + `gateway.mount` for proxies; path resolution, import,
initializer lookup and `gateway.mount` for modules): `false` means that
attempt raises and the `except` handler runs. -/
structure ServerEntry where
  name : Option String := none
  stype : Option String := none
  pfx : Option String := none
  url : Option String := none
  health_endpoint : Option String := none
  auth : Option AuthSpec := none
  mount_ok : Bool := true
deriving DecidableEq, Repr

/-- One value of `GatewayState.metrics`: a Python dict whose keys may be
absent (`check_server_connections` creates `self.metrics[name] = {}`).
Status strings are kept verbatim ("unknown", "healthy", "unhealthy",
"error"; "connected", "failed", "unhealthy", "disconnected"). -/
structure MetricsRecord where
  request_count : Option Nat := none
  error_count : Option Nat := none
  total_latency : Option Int := none
  last_check : Option Int := none
  status : Option String := none
  connection_status : Option String := none
deriving DecidableEq, Repr

/-- One value of `GatewayState.active_connections`, written by
`LoggingMiddleware.__call__`.  All three keys are always written together,
so the fields are total. -/
structure ConnectionRecord where
  connected_at : Int
  last_seen : Int
  requests : Nat
deriving DecidableEq, Repr

/-- `GatewayState.__init__`.  `start_time` and `last_activity` only feed
uptime/idle displays and are not modelled. -/
structure GatewayState where
  child_servers : List (String × ServerEntry) := []
  metrics : List (String × MetricsRecord) := []
  request_count : Nat := 0
  error_count : Nat := 0
  active_connections : List (String × ConnectionRecord) := []
deriving DecidableEq, Repr

/-- The state built by `GatewayState.__init__` (all maps empty, counters 0). -/
def initialState : GatewayState := {}

/-- The record created by `update_metrics` when `server_name not in self.metrics`
(gateway_server.py lines 58-66). -/
def freshMetricsRecord : MetricsRecord :=
  { request_count := some 0, error_count := some 0, total_latency := some 0,
    last_check := none, status := some "unknown",
    connection_status := some "disconnected" }

/-- `GatewayState.update_metrics` (gateway_server.py lines 57-83).
`none` models an uncaught `KeyError` (possible only when a pre-existing
metrics record lacks `request_count`, `total_latency` or `error_count`,
which `check_server_connections` can produce).  On `KeyError` the Python
object is left partially mutated; no claim reads the state after a raise,
so the failing run is collapsed to `none`. -/
def GatewayState.update_metrics (s : GatewayState) (server_name : String)
    (latency : Int) (status : String) (now : Int) : Option GatewayState := do
  let m0 := if (dictGet s.metrics server_name).isSome then s.metrics
            else dictSet s.metrics server_name freshMetricsRecord
  let r0 ← dictGet m0 server_name
  let rc ← r0.request_count
  let tl ← r0.total_latency
  let r1 : MetricsRecord :=
    { r0 with request_count := some (rc + 1), total_latency := some (tl + latency),
              last_check := some now, status := some status }
  if status = "healthy" then
    some { s with
      metrics := dictSet m0 server_name { r1 with connection_status := some "connected" },
      request_count := s.request_count + 1 }
  else if status = "error" then do
    let ec ← r1.error_count
    some { s with
      metrics := dictSet m0 server_name
        { r1 with connection_status := some "failed", error_count := some (ec + 1) },
      request_count := s.request_count + 1,
      error_count := s.error_count + 1 }
  else
    some { s with
      metrics := dictSet m0 server_name { r1 with connection_status := some "unhealthy" },
      request_count := s.request_count + 1 }

/-! ## C1: sequences of `recordObservation` (`update_metrics`) calls -/

/-- One `update_metrics` call: its arguments plus the wall clock at call time. -/
structure ObsCall where
  name : String
  latency : Int
  status : String
  now : Int
deriving DecidableEq, Repr

/-- Run a finite sequence of `update_metrics` calls left to right. -/
def runObservations (s : GatewayState) : List ObsCall → Option GatewayState
  | [] => some s
  | c :: cs =>
    match s.update_metrics c.name c.latency c.status c.now with
    | none => none
    | some s' => runObservations s' cs

/-- Number of calls in the sequence naming child `n`. -/
def countCallsFor (n : String) (calls : List ObsCall) : Nat :=
  (calls.filter (fun c => c.name == n)).length

/-- Number of calls in the sequence naming child `n` with outcome "error". -/
def countErrorsFor (n : String) (calls : List ObsCall) : Nat :=
  (calls.filter (fun c => c.name == n && c.status == "error")).length

/-- Every present metrics record carries the three counter keys that
`update_metrics` and `/status` read unconditionally. -/
def MetricsFull (s : GatewayState) : Prop :=
  ∀ n r, dictGet s.metrics n = some r →
    (∃ a, r.request_count = some a) ∧ (∃ b, r.error_count = some b) ∧
    (∃ t, r.total_latency = some t)

/-- The per-child request count, reading 0 for an absent record or key. -/
def recordedRequests (s : GatewayState) (n : String) : Nat :=
  match dictGet s.metrics n with
  | none => 0
  | some r => r.request_count.getD 0

/-- The per-child error count, reading 0 for an absent record or key. -/
def recordedErrors (s : GatewayState) (n : String) : Nat :=
  match dictGet s.metrics n with
  | none => 0
  | some r => r.error_count.getD 0

theorem countCallsFor_cons (n : String) (c : ObsCall) (cs : List ObsCall) :
    countCallsFor n (c :: cs) =
      (if c.name = n then 1 else 0) + countCallsFor n cs := by
  by_cases h : c.name = n <;> simp [countCallsFor, h] <;> omega

theorem countErrorsFor_cons (n : String) (c : ObsCall) (cs : List ObsCall) :
    countErrorsFor n (c :: cs) =
      (if c.name = n ∧ c.status = "error" then 1 else 0) + countErrorsFor n cs := by
  by_cases h1 : c.name = n <;> by_cases h2 : c.status = "error" <;>
    simp [countErrorsFor, h1, h2] <;> omega

theorem countErrorsFor_le (n : String) (calls : List ObsCall) :
    countErrorsFor n calls ≤ countCallsFor n calls := by
  induction calls with
  | nil => exact Nat.le_refl 0
  | cons c cs ih =>
    rw [countCallsFor_cons, countErrorsFor_cons]
    by_cases h1 : c.name = n <;> by_cases h2 : c.status = "error" <;>
      simp [h1, h2] <;> omega

/-- What a single `update_metrics` call does to a state whose metrics records
all carry their counter keys: it always succeeds, bumps the global request
counter by one, bumps the global error counter exactly on outcome "error",
leaves other children's records and the rest of the state alone, and bumps
the named child's per-child counters. -/
theorem update_metrics_spec (s : GatewayState) (name : String) (lat : Int)
    (st : String) (now : Int) (h : MetricsFull s) :
    ∃ s', s.update_metrics name lat st now = some s' ∧ MetricsFull s' ∧
      s'.request_count = s.request_count + 1 ∧
      s'.error_count = s.error_count + (if st = "error" then 1 else 0) ∧
      (∀ n, n ≠ name → dictGet s'.metrics n = dictGet s.metrics n) ∧
      (∃ r', dictGet s'.metrics name = some r' ∧
        r'.request_count = some (recordedRequests s name + 1) ∧
        r'.error_count =
          some (recordedErrors s name + (if st = "error" then 1 else 0)) ∧
        r'.status = some st ∧
        r'.connection_status = some (if st = "healthy" then "connected"
          else if st = "error" then "failed" else "unhealthy")) ∧
      s'.child_servers = s.child_servers ∧
      s'.active_connections = s.active_connections := by
  by_cases hmem : (dictGet s.metrics name).isSome
  · obtain ⟨r0, hr0⟩ := Option.isSome_iff_exists.mp hmem
    obtain ⟨⟨a, ha⟩, ⟨b, hb⟩, ⟨t, ht⟩⟩ := h name r0 hr0
    have hreq : recordedRequests s name = a := by
      unfold recordedRequests; rw [hr0]; simp [ha]
    have herr : recordedErrors s name = b := by
      unfold recordedErrors; rw [hr0]; simp [hb]
    have hfull : ∀ rN : MetricsRecord,
        (∃ a', rN.request_count = some a') → (∃ b', rN.error_count = some b') →
        (∃ t', rN.total_latency = some t') →
        MetricsFull { s with metrics := dictSet s.metrics name rN,
                             request_count := s.request_count + 1 } ∧
        MetricsFull { s with metrics := dictSet s.metrics name rN,
                             request_count := s.request_count + 1,
                             error_count := s.error_count + 1 } := by
      intro rN h1 h2 h3
      constructor <;>
      · intro n r hget
        by_cases hn : n = name
        · subst hn
          rw [show dictGet (dictSet s.metrics n rN) n = some rN from
                dictGet_dictSet_self _ _ _] at hget
          cases hget; exact ⟨h1, h2, h3⟩
        · rw [show dictGet (dictSet s.metrics name rN) n = dictGet s.metrics n from
                dictGet_dictSet_ne _ _ _ _ hn] at hget
          exact h n r hget
    by_cases hst1 : st = "healthy"
    · have hcomp : s.update_metrics name lat st now = some
          { s with
            metrics := dictSet s.metrics name ({ r0 with
              request_count := some (a + 1), total_latency := some (t + lat),
              last_check := some now, status := some st,
              connection_status := some "connected" }),
            request_count := s.request_count + 1 } := by
        simp [GatewayState.update_metrics, hmem, hr0, ha, ht, hst1]
      refine ⟨_, hcomp, ?_, rfl, ?_, ?_, ?_, rfl, rfl⟩
      · refine (hfull _ ?_ ?_ ?_).1
        · exact ⟨_, rfl⟩
        · exact ⟨b, hb⟩
        · exact ⟨_, rfl⟩
      · simp [hst1]
      · exact fun n hn => dictGet_dictSet_ne _ _ _ _ hn
      · exact ⟨_, dictGet_dictSet_self _ _ _, by simp [hreq],
          by simp [herr, hb, hst1], rfl, by simp [hst1]⟩
    · by_cases hst2 : st = "error"
      · have hcomp : s.update_metrics name lat st now = some
            { s with
              metrics := dictSet s.metrics name ({ r0 with
                request_count := some (a + 1), total_latency := some (t + lat),
                last_check := some now, status := some st,
                connection_status := some "failed", error_count := some (b + 1) }),
              request_count := s.request_count + 1,
              error_count := s.error_count + 1 } := by
          simp [GatewayState.update_metrics, hmem, hr0, ha, ht, hb, hst1, hst2]
        refine ⟨_, hcomp, ?_, rfl, ?_, ?_, ?_, rfl, rfl⟩
        · refine (hfull _ ?_ ?_ ?_).2
          · exact ⟨_, rfl⟩
          · exact ⟨_, rfl⟩
          · exact ⟨_, rfl⟩
        · simp [hst2]
        · exact fun n hn => dictGet_dictSet_ne _ _ _ _ hn
        · exact ⟨_, dictGet_dictSet_self _ _ _, by simp [hreq],
            by simp [herr, hst2], rfl, by simp [hst1, hst2]⟩
      · have hcomp : s.update_metrics name lat st now = some
            { s with
              metrics := dictSet s.metrics name ({ r0 with
                request_count := some (a + 1), total_latency := some (t + lat),
                last_check := some now, status := some st,
                connection_status := some "unhealthy" }),
              request_count := s.request_count + 1 } := by
          simp [GatewayState.update_metrics, hmem, hr0, ha, ht, hst1, hst2]
        refine ⟨_, hcomp, ?_, rfl, ?_, ?_, ?_, rfl, rfl⟩
        · refine (hfull _ ?_ ?_ ?_).1
          · exact ⟨_, rfl⟩
          · exact ⟨b, hb⟩
          · exact ⟨_, rfl⟩
        · simp [hst2]
        · exact fun n hn => dictGet_dictSet_ne _ _ _ _ hn
        · exact ⟨_, dictGet_dictSet_self _ _ _, by simp [hreq],
            by simp [herr, hb, hst2], rfl, by simp [hst1, hst2]⟩
  · have hr0 : dictGet s.metrics name = none := by
      cases hd : dictGet s.metrics name with
      | none => rfl
      | some r => rw [hd] at hmem; simp at hmem
    have hreq : recordedRequests s name = 0 := by
      unfold recordedRequests; rw [hr0]
    have herr : recordedErrors s name = 0 := by
      unfold recordedErrors; rw [hr0]
    have hm0 : dictGet (dictSet s.metrics name freshMetricsRecord) name =
        some freshMetricsRecord := dictGet_dictSet_self _ _ _
    have hf1 : freshMetricsRecord.request_count = some 0 := rfl
    have hf2 : freshMetricsRecord.error_count = some 0 := rfl
    have hf3 : freshMetricsRecord.total_latency = some 0 := rfl
    have hfull : ∀ rN : MetricsRecord,
        (∃ a', rN.request_count = some a') → (∃ b', rN.error_count = some b') →
        (∃ t', rN.total_latency = some t') →
        MetricsFull { s with
          metrics := dictSet (dictSet s.metrics name freshMetricsRecord) name rN,
          request_count := s.request_count + 1 } ∧
        MetricsFull { s with
          metrics := dictSet (dictSet s.metrics name freshMetricsRecord) name rN,
          request_count := s.request_count + 1,
          error_count := s.error_count + 1 } := by
      intro rN h1 h2 h3
      constructor <;>
      · intro n r hget
        by_cases hn : n = name
        · subst hn
          rw [show dictGet (dictSet (dictSet s.metrics n freshMetricsRecord) n rN) n
                = some rN from dictGet_dictSet_self _ _ _] at hget
          cases hget; exact ⟨h1, h2, h3⟩
        · rw [show dictGet (dictSet (dictSet s.metrics name freshMetricsRecord) name rN) n
                = dictGet (dictSet s.metrics name freshMetricsRecord) n from
                dictGet_dictSet_ne _ _ _ _ hn,
              show dictGet (dictSet s.metrics name freshMetricsRecord) n
                = dictGet s.metrics n from dictGet_dictSet_ne _ _ _ _ hn] at hget
          exact h n r hget
    have hframe : ∀ (rN : MetricsRecord) (n : String), n ≠ name →
        dictGet (dictSet (dictSet s.metrics name freshMetricsRecord) name rN) n =
          dictGet s.metrics n := by
      intro rN n hn
      rw [dictGet_dictSet_ne _ _ _ _ hn, dictGet_dictSet_ne _ _ _ _ hn]
    by_cases hst1 : st = "healthy"
    · have hcomp : s.update_metrics name lat st now = some
          { s with
            metrics := dictSet (dictSet s.metrics name freshMetricsRecord) name ({
              request_count := some 1, error_count := some 0,
              total_latency := some (0 + lat), last_check := some now,
              status := some st, connection_status := some "connected" }),
            request_count := s.request_count + 1 } := by
        simp [GatewayState.update_metrics, hmem, hm0, hf1, hf2, hf3, hst1]
      refine ⟨_, hcomp, ?_, rfl, ?_, ?_, ?_, rfl, rfl⟩
      · refine (hfull _ ?_ ?_ ?_).1
        · exact ⟨_, rfl⟩
        · exact ⟨_, rfl⟩
        · exact ⟨_, rfl⟩
      · simp [hst1]
      · exact fun n hn => hframe _ n hn
      · exact ⟨_, dictGet_dictSet_self _ _ _, by simp [hreq],
          by simp [herr, hst1], rfl, by simp [hst1]⟩
    · by_cases hst2 : st = "error"
      · have hcomp : s.update_metrics name lat st now = some
            { s with
              metrics := dictSet (dictSet s.metrics name freshMetricsRecord) name ({
                request_count := some 1, error_count := some 1,
                total_latency := some (0 + lat), last_check := some now,
                status := some st, connection_status := some "failed" }),
              request_count := s.request_count + 1,
              error_count := s.error_count + 1 } := by
          simp [GatewayState.update_metrics, hmem, hm0, hf1, hf2, hf3, hst1, hst2]
        refine ⟨_, hcomp, ?_, rfl, ?_, ?_, ?_, rfl, rfl⟩
        · refine (hfull _ ?_ ?_ ?_).2
          · exact ⟨_, rfl⟩
          · exact ⟨_, rfl⟩
          · exact ⟨_, rfl⟩
        · simp [hst2]
        · exact fun n hn => hframe _ n hn
        · exact ⟨_, dictGet_dictSet_self _ _ _, by simp [hreq],
            by simp [herr, hst2], rfl, by simp [hst1, hst2]⟩
      · have hcomp : s.update_metrics name lat st now = some
            { s with
              metrics := dictSet (dictSet s.metrics name freshMetricsRecord) name ({
                request_count := some 1, error_count := some 0,
                total_latency := some (0 + lat), last_check := some now,
                status := some st, connection_status := some "unhealthy" }),
              request_count := s.request_count + 1 } := by
          simp [GatewayState.update_metrics, hmem, hm0, hf1, hf2, hf3, hst1, hst2]
        refine ⟨_, hcomp, ?_, rfl, ?_, ?_, ?_, rfl, rfl⟩
        · refine (hfull _ ?_ ?_ ?_).1
          · exact ⟨_, rfl⟩
          · exact ⟨_, rfl⟩
          · exact ⟨_, rfl⟩
        · simp [hst2]
        · exact fun n hn => hframe _ n hn
        · exact ⟨_, dictGet_dictSet_self _ _ _, by simp [hreq],
            by simp [herr, hst2], rfl, by simp [hst1, hst2]⟩

/-- Folding `update_metrics` over a call list from any state whose records
carry their counter keys: the run succeeds and counters accumulate. -/
theorem runObservations_spec (calls : List ObsCall) :
    ∀ s : GatewayState, MetricsFull s →
    ∃ s', runObservations s calls = some s' ∧ MetricsFull s' ∧
      s'.request_count = s.request_count + calls.length ∧
      (∀ n, recordedRequests s' n = recordedRequests s n + countCallsFor n calls) ∧
      (∀ n, recordedErrors s' n = recordedErrors s n + countErrorsFor n calls) ∧
      (∀ n, dictGet s'.metrics n = none →
        dictGet s.metrics n = none ∧ countCallsFor n calls = 0) := by
  induction calls with
  | nil =>
    intro s hs
    refine ⟨s, rfl, hs, by simp, ?_, ?_, ?_⟩
    · intro n; simp [countCallsFor]
    · intro n; simp [countErrorsFor]
    · intro n hn; exact ⟨hn, by simp [countCallsFor]⟩
  | cons c cs ih =>
    intro s hs
    obtain ⟨s1, hrun1, hfull1, hreq1, herrg1, hframe1, ⟨r1, hr1, hrc1, hec1, _, _⟩, _, _⟩ :=
      update_metrics_spec s c.name c.latency c.status c.now hs
    obtain ⟨s2, hrun2, hfull2, hreq2, hcnt2, herr2, hnone2⟩ := ih s1 hfull1
    have hgetReq : ∀ (sx : GatewayState) (n : String) (r : MetricsRecord),
        dictGet sx.metrics n = some r → recordedRequests sx n = r.request_count.getD 0 := by
      intro sx n r hh; unfold recordedRequests; rw [hh]
    have hgetErr : ∀ (sx : GatewayState) (n : String) (r : MetricsRecord),
        dictGet sx.metrics n = some r → recordedErrors sx n = r.error_count.getD 0 := by
      intro sx n r hh; unfold recordedErrors; rw [hh]
    have hcongrReq : ∀ (sx sy : GatewayState) (n : String),
        dictGet sx.metrics n = dictGet sy.metrics n →
        recordedRequests sx n = recordedRequests sy n := by
      intro sx sy n hh; unfold recordedRequests; rw [hh]
    have hcongrErr : ∀ (sx sy : GatewayState) (n : String),
        dictGet sx.metrics n = dictGet sy.metrics n →
        recordedErrors sx n = recordedErrors sy n := by
      intro sx sy n hh; unfold recordedErrors; rw [hh]
    have hstep_req : ∀ n, recordedRequests s1 n =
        recordedRequests s n + (if c.name = n then 1 else 0) := by
      intro n
      by_cases hn : n = c.name
      · subst hn
        rw [hgetReq s1 c.name r1 hr1, hrc1]
        simp
      · have hne : c.name = n → False := fun hh => hn hh.symm
        rw [hcongrReq s1 s n (hframe1 n hn), if_neg hne]
        omega
    have hstep_err : ∀ n, recordedErrors s1 n =
        recordedErrors s n + (if c.name = n ∧ c.status = "error" then 1 else 0) := by
      intro n
      by_cases hn : n = c.name
      · subst hn
        rw [hgetErr s1 c.name r1 hr1, hec1]
        by_cases he : c.status = "error" <;> simp [he]
      · have hne : ¬ (c.name = n ∧ c.status = "error") := fun hh => hn hh.1.symm
        rw [hcongrErr s1 s n (hframe1 n hn), if_neg hne]
        omega
    refine ⟨s2, ?_, hfull2, ?_, ?_, ?_, ?_⟩
    · show runObservations s (c :: cs) = some s2
      unfold runObservations
      rw [hrun1]
      exact hrun2
    · rw [hreq2, hreq1, List.length_cons]
      omega
    · intro n
      rw [hcnt2 n, hstep_req n, countCallsFor_cons]
      omega
    · intro n
      rw [herr2 n, hstep_err n, countErrorsFor_cons]
      omega
    · intro n hn
      obtain ⟨hn1, hcs⟩ := hnone2 n hn
      by_cases hne : n = c.name
      · subst hne; rw [hr1] at hn1; cases hn1
      · have hfr := hframe1 n hne
        rw [hn1] at hfr
        have hcc : ¬ c.name = n := fun hh => hne hh.symm
        refine ⟨hfr.symm, ?_⟩
        rw [countCallsFor_cons]
        simp [hcc, hcs]

/-- **C1.** For every finite sequence of `recordObservation` (`update_metrics`)
calls starting from the initial gateway state: for every child name, the
run succeeds, `request_count(name)` equals the number of calls naming that
child, `error_count(name)` equals the number of those calls with outcome
"error" and is at most `request_count(name)`, and the global request
counter equals the total number of calls (it is incremented unconditionally
on each call). -/
theorem recordObservation_counts (calls : List ObsCall) :
    ∃ s, runObservations initialState calls = some s ∧
      s.request_count = calls.length ∧
      ∀ n, (dictGet s.metrics n = none ∧ countCallsFor n calls = 0 ∧
              countErrorsFor n calls = 0) ∨
        ∃ r, dictGet s.metrics n = some r ∧
          r.request_count = some (countCallsFor n calls) ∧
          r.error_count = some (countErrorsFor n calls) ∧
          countErrorsFor n calls ≤ countCallsFor n calls := by
  have hinit : MetricsFull initialState := by
    intro n r hget
    simp [initialState, dictGet] at hget
  obtain ⟨s, hrun, hfull, hreq, hcnt, herr, hnone⟩ :=
    runObservations_spec calls initialState hinit
  have hi0 : initialState.request_count = 0 := rfl
  refine ⟨s, hrun, by omega, ?_⟩
  intro n
  have h1 : recordedRequests initialState n = 0 := rfl
  have h2 : recordedErrors initialState n = 0 := rfl
  cases hd : dictGet s.metrics n with
  | none =>
    left
    have h0 := hnone n hd
    have hle := countErrorsFor_le n calls
    exact ⟨rfl, h0.2, by omega⟩
  | some r =>
    right
    obtain ⟨⟨a, ha⟩, ⟨b, hb⟩, _⟩ := hfull n r hd
    have hra : recordedRequests s n = a := by
      unfold recordedRequests; rw [hd]; simp [ha]
    have hrb : recordedErrors s n = b := by
      unfold recordedErrors; rw [hd]; simp [hb]
    have hc := hcnt n
    have he := herr n
    rw [hra, h1] at hc
    rw [hrb, h2] at he
    refine ⟨r, rfl, ?_, ?_, countErrorsFor_le n calls⟩
    · rw [ha]; exact congrArg some (by omega)
    · rw [hb]; exact congrArg some (by omega)

/-! ## Registry/Mounter: `load_child_servers` (gateway_server.py lines 277-446) -/

/-- Lines 308-313: the Authorization header dict computed for a proxy entry.
`env` is `os.environ`; the token is `os.environ.get(auth["token"], auth["token"])`
(the named environment variable when set, the literal string otherwise).
`none` models a `KeyError` on `auth["type"]` or `auth["token"]` (these
bracket accesses sit outside the inner `try`). -/
def authHeaders (env : String → Option String) (a : Option AuthSpec) :
    Option (List (String × String)) :=
  match a with
  | none => some []
  | some auth =>
    match auth.atype with
    | none => none
    | some ty =>
      if ty = "bearer" then
        match auth.token with
        | none => none
        | some tokenName =>
          some [("Authorization", "Bearer " ++ ((env tokenName).getD tokenName))]
      else some []

/-- The `ProxyClient` object: the target URL it is bound to and the extra
HTTP headers it will send. -/
structure ProxyClientModel where
  url : String
  headers : List (String × String)
deriving DecidableEq, Repr

/-- Line 317: `proxy_client = ProxyClient(url)`.  The constructor receives
the URL alone — no headers argument — so the built client carries no extra
headers. -/
def builtProxyClient (url : String) : ProxyClientModel :=
  { url := url, headers := [] }

/-- The client built and mounted for a proxy entry (lines 303-318): the
bearer header dict is computed at lines 308-313 and then never used;
`ProxyClient` is constructed from `url` only.  `none` models a `KeyError`
on `server_config["url"]` or inside the auth handling. -/
def mountedClientFor (env : String → Option String) (e : ServerEntry) :
    Option ProxyClientModel :=
  match e.url with
  | none => none
  | some url =>
    match authHeaders env e.auth with
    | none => none
    | some _headers => some (builtProxyClient url)

/-- The `for server_config in config.get("child_servers", [])` loop
(lines 296-443) run on an already-parsed entry list.  The whole loop body
sits inside the `try` opened at line 289, whose `except` (line 445) logs
"Failed to load configuration" and returns — so a `KeyError` from
`server_config["name"]` (line 297), `server_config["type"]` (line 298),
`server_config["url"]` (line 305) or the auth handling (lines 311-312)
aborts processing of that entry AND of all remaining entries, keeping what
was already recorded.  A mount failure (`except` at lines 325 / 436) ends
with `continue`, which skips the `state.child_servers[name] = server_config`
record step at line 443.  An entry whose `type` is neither "proxy" nor
"module" matches no branch and falls through to line 443. -/
def load_child_servers (env : String → Option String) :
    List ServerEntry → GatewayState → GatewayState
  | [], s => s
  | e :: rest, s =>
    match e.name with
    | none => s
    | some name =>
      match e.stype with
      | none => s
      | some ty =>
        if ty = "proxy" then
          match mountedClientFor env e with
          | none => s
          | some _client =>
            if e.mount_ok then
              load_child_servers env rest
                { s with child_servers := dictSet s.child_servers name e }
            else
              load_child_servers env rest s
        else if ty = "module" then
          -- module fields are read with .get(...) defaults: no KeyError here
          if e.mount_ok then
            load_child_servers env rest
              { s with child_servers := dictSet s.child_servers name e }
          else
            load_child_servers env rest s
        else
          load_child_servers env rest
            { s with child_servers := dictSet s.child_servers name e }

/-- An environment with no variables set. -/
def emptyEnv : String → Option String := fun _ => none

/-- A well-formed proxy entry whose mount attempt succeeds. -/
def eGood : ServerEntry :=
  { name := some "good", stype := some "proxy", pfx := some "good",
    url := some "http://child-a/mcp", mount_ok := true }

/-- A proxy entry whose mount attempt (client construction / `gateway.mount`)
raises. -/
def eFail : ServerEntry :=
  { name := some "bad", stype := some "proxy", pfx := some "bad",
    url := some "http://child-b/mcp", mount_ok := false }

/-- An entry missing the required `name` field. -/
def eNoName : ServerEntry :=
  { stype := some "proxy", pfx := some "x", url := some "http://child-c/mcp" }

/-- A proxy entry carrying a bearer auth spec naming an environment
variable. -/
def eBearer : ServerEntry :=
  { name := some "auth-child", stype := some "proxy", pfx := some "a",
    url := some "http://child-d/mcp",
    auth := some { atype := some "bearer", token := some "MY_TOKEN" } }

/-- An environment in which `MY_TOKEN` is set. -/
def envWithToken : String → Option String :=
  fun k => if k = "MY_TOKEN" then some "s3cret" else none

/-- **C2 (counterexample).** A configured proxy entry whose mount attempt
fails is NOT recorded in the child-server map: the `except` handler ends in
`continue`, which skips `state.child_servers[name] = server_config`
(line 443).  The claim says the descriptor is recorded regardless of mount
outcome. -/
theorem failed_mount_entry_absent :
    dictGet (load_child_servers emptyEnv [eFail] initialState).child_servers
      "bad" = none ∧
    (load_child_servers emptyEnv [eFail] initialState).child_servers = [] := by
  constructor <;> rfl

/-- **C2 (amended).** A child entry whose mount attempt fails (proxy client
construction / mounting error, or module path, import or initializer
failure) is skipped entirely: the loop `continue`s past the record step, so
the state is exactly what processing the remaining entries yields — in
particular the entry's descriptor is not recorded. -/
theorem failed_mount_skips_entry (env : String → Option String)
    (rest : List ServerEntry) (s : GatewayState) (e : ServerEntry)
    (name : String) (hname : e.name = some name) (hmount : e.mount_ok = false)
    (hkind : (e.stype = some "proxy" ∧ (mountedClientFor env e).isSome) ∨
             e.stype = some "module") :
    load_child_servers env (e :: rest) s = load_child_servers env rest s := by
  rcases hkind with ⟨hty, hcl⟩ | hty
  · obtain ⟨c, hc⟩ := Option.isSome_iff_exists.mp hcl
    simp [load_child_servers, hname, hty, hc, hmount]
  · simp [load_child_servers, hname, hty, hmount]

/-- Witness for `failed_mount_skips_entry`: the failing proxy entry `eFail`
in front of `[eGood]` contributes nothing. -/
theorem failed_mount_skips_entry_witness :
    load_child_servers emptyEnv [eFail, eGood] initialState =
      load_child_servers emptyEnv [eGood] initialState :=
  failed_mount_skips_entry emptyEnv [eGood] initialState eFail "bad" rfl rfl
    (Or.inl ⟨rfl, rfl⟩)

/-- **C3 (counterexample).** One valid proxy entry plus one entry missing
`name` does NOT record exactly one descriptor regardless of order: with the
malformed entry first, `server_config["name"]` raises `KeyError`, which is
caught only by the configuration-level `except` (line 445), aborting the
remaining entries — zero descriptors are recorded.  With the valid entry
first, one descriptor is recorded. -/
theorem missing_name_order_dependent :
    (load_child_servers emptyEnv [eNoName, eGood] initialState).child_servers.length
        = 0 ∧
    (load_child_servers emptyEnv [eGood, eNoName] initialState).child_servers.length
        = 1 := by
  constructor <;> rfl

/-- **C3 (amended).** An entry missing the required `name` field aborts
configuration loading at that entry: the `KeyError` propagates to the
config-level handler, which logs and returns, so that entry and every
subsequent entry are skipped, and the state stays whatever the earlier
entries produced.  (Loading is hence order dependent: a valid entry records
its descriptor only when it precedes the malformed one.) -/
theorem missing_name_aborts_remaining (env : String → Option String)
    (rest : List ServerEntry) (s : GatewayState) (e : ServerEntry)
    (hname : e.name = none) :
    load_child_servers env (e :: rest) s = s := by
  simp [load_child_servers, hname]

/-- Witness for `missing_name_aborts_remaining`: the name-less entry ahead
of the valid one yields the untouched initial state. -/
theorem missing_name_aborts_remaining_witness :
    load_child_servers emptyEnv [eNoName, eGood] initialState = initialState :=
  missing_name_aborts_remaining emptyEnv [eGood] initialState eNoName rfl

/-- **C9.** The bearer token IS resolved through the environment-variable
indirection (`os.environ.get(auth["token"], auth["token"])`: the variable's
value when set, the literal token string otherwise) and an
`Authorization: Bearer ...` header dict is computed — but the computed
headers are never passed on: `ProxyClient(url)` is constructed from the URL
alone (line 317), so the client built and mounted for the entry carries no
Authorization header.  This exhibits the code bug behind the claim. -/
theorem bearer_header_computed_but_dropped :
    authHeaders envWithToken eBearer.auth =
        some [("Authorization", "Bearer s3cret")] ∧
    authHeaders emptyEnv eBearer.auth =
        some [("Authorization", "Bearer MY_TOKEN")] ∧
    mountedClientFor envWithToken eBearer =
        some { url := "http://child-d/mcp", headers := [] } ∧
    (builtProxyClient "http://child-d/mcp").headers = [] := by
  refine ⟨?_, ?_, ?_, ?_⟩ <;> rfl

/-! ## Per-child health check: `server_health_check` (lines 171-227) -/

/-- Outcome of one `client.get(health_url, timeout=...)` call: an HTTP
response with a status code, or any raised exception (timeout, connection
refused, DNS failure, ...). -/
inductive ProbeResult where
  | ok (code : Nat)
  | failure
deriving DecidableEq, Repr

/-- The JSON responses `server_health_check` can return. -/
inductive HealthResponse where
  | notFound (server : String)
  | okProxy (server : String) (status : String) (code : Nat)
  | errProxy (server : String)
  | okMounted (server : String)
deriving DecidableEq, Repr

/-- `server_health_check` (lines 171-227), handler of
`GET /health/{server_name}`.  `probe` is the outcome of the HTTP probe of
the child's health endpoint; `latency` the measured elapsed milliseconds;
`now` the wall clock.  Unknown names return the 404 response before any
state is touched.  A probe exception enters the `except` branch, which
records the observation with outcome "error" and returns a 503 response.
`none` models a `KeyError` escaping the handler (missing `type` key, or
`update_metrics` raising on a metrics record that lacks its counter
keys). -/
def server_health_check (s : GatewayState) (server_name : String)
    (probe : ProbeResult) (latency : Int) (now : Int) :
    Option (HealthResponse × GatewayState) :=
  match dictGet s.child_servers server_name with
  | none => some (HealthResponse.notFound server_name, s)
  | some info =>
    match info.stype with
    | none => none
    | some ty =>
      if ty = "proxy" then
        match probe with
        | ProbeResult.ok code =>
          let status := if code = 200 then "healthy" else "unhealthy"
          match s.update_metrics server_name latency status now with
          | some s1 => some (HealthResponse.okProxy server_name status code, s1)
          | none =>
            -- KeyError inside the `try` falls into the `except` branch
            match s.update_metrics server_name latency "error" now with
            | some s1 => some (HealthResponse.errProxy server_name, s1)
            | none => none
        | ProbeResult.failure =>
          match s.update_metrics server_name latency "error" now with
          | some s1 => some (HealthResponse.errProxy server_name, s1)
          | none => none
      else
        match s.update_metrics server_name latency "healthy" now with
        | some s1 => some (HealthResponse.okMounted server_name, s1)
        | none => none

/-- **C6.** A per-child health request for a name that is not a registered
child returns the 404 not-found response (no exception crosses the
transport: the handler returns normally) and leaves the whole gateway
state — metrics map, child map, connection map and both global counters —
exactly as it was. -/
theorem unknown_server_health_check_is_pure (s : GatewayState)
    (server_name : String) (probe : ProbeResult) (latency now : Int)
    (h : dictGet s.child_servers server_name = none) :
    server_health_check s server_name probe latency now =
      some (HealthResponse.notFound server_name, s) := by
  simp [server_health_check, h]

/-- Witness for `unknown_server_health_check_is_pure`: probing the unknown
name "ghost" on the empty gateway returns 404 and the untouched state. -/
theorem unknown_server_health_check_is_pure_witness :
    server_health_check initialState "ghost" ProbeResult.failure 7 100 =
      some (HealthResponse.notFound "ghost", initialState) :=
  unknown_server_health_check_is_pure initialState "ghost"
    ProbeResult.failure 7 100 rfl

/-- A registered proxy child named "p" with no metrics yet. -/
def eP : ServerEntry :=
  { name := some "p", stype := some "proxy", pfx := some "p",
    url := some "http://p/mcp" }

/-- A gateway state holding exactly the proxy child "p". -/
def sProxyOne : GatewayState := { child_servers := [("p", eP)] }

/-- **C4 (counterexample).** When the probe of a registered proxy child
times out, the handler's `except` branch calls
`update_metrics(name, latency, "error")`, which sets
`connection_status = "failed"` — not "disconnected" as the claim states. -/
theorem health_timeout_yields_failed_not_disconnected :
    ((server_health_check sProxyOne "p" ProbeResult.failure 5 100).bind
        (fun x => (dictGet x.2.metrics "p").map
          (fun r => r.connection_status))) = some (some "failed") ∧
    some (some "failed") ≠ some (some ("disconnected" : String)) := by
  exact ⟨rfl, by decide⟩

/-- **C4 (amended).** For the per-child health endpoint on a registered
proxy child (with well-keyed metrics): a probe answering HTTP 200 within
the timeout leaves the child's record with `status = "healthy"` and
`connection_status = "connected"`; a probe that times out (or fails in any
transport-level way) leaves it with `status = "error"` and
`connection_status = "failed"`. -/
theorem per_child_health_check_classification
    (s : GatewayState) (name : String) (info : ServerEntry)
    (latency now : Int)
    (hreg : dictGet s.child_servers name = some info)
    (hty : info.stype = some "proxy")
    (hfull : MetricsFull s) :
    (∃ s1, server_health_check s name (ProbeResult.ok 200) latency now =
        some (HealthResponse.okProxy name "healthy" 200, s1) ∧
      ∃ r, dictGet s1.metrics name = some r ∧ r.status = some "healthy" ∧
        r.connection_status = some "connected") ∧
    (∃ s1, server_health_check s name ProbeResult.failure latency now =
        some (HealthResponse.errProxy name, s1) ∧
      ∃ r, dictGet s1.metrics name = some r ∧ r.status = some "error" ∧
        r.connection_status = some "failed") := by
  constructor
  · obtain ⟨s1, hcomp, _, _, _, _, ⟨r, hr, _, _, hst, hconn⟩, _, _⟩ :=
      update_metrics_spec s name latency "healthy" now hfull
    refine ⟨s1, ?_, r, hr, hst, by simpa using hconn⟩
    simp [server_health_check, hreg, hty, hcomp]
  · obtain ⟨s1, hcomp, _, _, _, _, ⟨r, hr, _, _, hst, hconn⟩, _, _⟩ :=
      update_metrics_spec s name latency "error" now hfull
    refine ⟨s1, ?_, r, hr, hst, by simpa using hconn⟩
    simp [server_health_check, hreg, hty, hcomp]

/-- Witness for `per_child_health_check_classification` at the concrete
one-proxy gateway `sProxyOne`. -/
theorem per_child_health_check_classification_witness :
    (∃ s1, server_health_check sProxyOne "p" (ProbeResult.ok 200) 5 100 =
        some (HealthResponse.okProxy "p" "healthy" 200, s1) ∧
      ∃ r, dictGet s1.metrics "p" = some r ∧ r.status = some "healthy" ∧
        r.connection_status = some "connected") ∧
    (∃ s1, server_health_check sProxyOne "p" ProbeResult.failure 5 100 =
        some (HealthResponse.errProxy "p", s1) ∧
      ∃ r, dictGet s1.metrics "p" = some r ∧ r.status = some "error" ∧
        r.connection_status = some "failed") :=
  per_child_health_check_classification sProxyOne "p" eP 5 100 rfl rfl
    (fun n r hget => by simp [sProxyOne, dictGet] at hget)

/-! ## Health prober: `check_server_connections` (lines 85-145) -/

/-- The `if name not in self.metrics: self.metrics[name] = fresh` idiom. -/
def ensureKey (d : List (String × MetricsRecord)) (k : String)
    (v : MetricsRecord) : List (String × MetricsRecord) :=
  if (dictGet d k).isSome then d else dictSet d k v

theorem dictGet_ensureKey_self (d : List (String × MetricsRecord))
    (k : String) (v : MetricsRecord) :
    dictGet (ensureKey d k v) k = some ((dictGet d k).getD v) := by
  unfold ensureKey
  cases hd : dictGet d k with
  | none => simp [hd, dictGet_dictSet_self]
  | some r => simp [hd]

theorem dictGet_ensureKey_ne (d : List (String × MetricsRecord))
    (k n : String) (v : MetricsRecord) (h : n ≠ k) :
    dictGet (ensureKey d k v) n = dictGet d n := by
  unfold ensureKey
  cases hd : dictGet d k with
  | none => simp [hd, dictGet_dictSet_ne _ _ _ _ h]
  | some r => simp [hd]

/-- The fresh record the module pass creates for a child with no metrics yet
(lines 123-129): counters zeroed, `status="healthy"`, and NO
`connection_status` key until line 130 assigns it. -/
def moduleFreshRecord (now : Int) : MetricsRecord :=
  { request_count := some 0, error_count := some 0, total_latency := some 0,
    last_check := some now, status := some "healthy" }

/-- One iteration of the module loop body (lines 121-130): ensure a record
exists, then set `connection_status = "connected"`. -/
def checkModuleStep (now : Int) (s : GatewayState) (name : String) :
    GatewayState :=
  match dictGet (ensureKey s.metrics name (moduleFreshRecord now)) name with
  | none => s
  | some r =>
    { s with
      metrics := dictSet (ensureKey s.metrics name (moduleFreshRecord now)) name
        ({ r with connection_status := some "connected" }) }

/-- `check_proxy` (lines 90-117) for one proxy child, given its probe
outcome.  HTTP 200 sets `connection_status="connected"` and `last_check`;
any other status code sets "unhealthy"; any raised exception (timeout,
refused connection, ...) is caught by the bare `except` and sets
"disconnected".  A child with no record yet gets an EMPTY dict
(`self.metrics[name] = {}`), so only the fields assigned here exist
afterwards. -/
def checkProxyStep (pr : ProbeResult) (now : Int) (s : GatewayState)
    (name : String) : GatewayState :=
  match dictGet (ensureKey s.metrics name {}) name with
  | none => s
  | some r =>
    match pr with
    | ProbeResult.ok code =>
      if code = 200 then
        { s with
          metrics := dictSet (ensureKey s.metrics name {}) name
            ({ r with connection_status := some "connected",
                      last_check := some now }) }
      else
        { s with
          metrics := dictSet (ensureKey s.metrics name {}) name
            ({ r with connection_status := some "unhealthy" }) }
    | ProbeResult.failure =>
      { s with
        metrics := dictSet (ensureKey s.metrics name {}) name
          ({ r with connection_status := some "disconnected" }) }

/-- The connection status `check_proxy` records for a probe outcome. -/
def classifyProbe : ProbeResult → String
  | ProbeResult.ok code => if code = 200 then "connected" else "unhealthy"
  | ProbeResult.failure => "disconnected"

/-- The synchronous module pass (lines 119-130).  `info["type"]` on an
entry missing the key raises, modelled as `none`. -/
def checkModules (now : Int) :
    List (String × ServerEntry) → GatewayState → Option GatewayState
  | [], s => some s
  | p :: rest, s =>
    match p.2.stype with
    | none => none
    | some ty =>
      checkModules now rest (if ty = "module" then checkModuleStep now s p.1 else s)

/-- The `asyncio.gather` over per-proxy `check_proxy` tasks (lines 132-145).
Each task reads and writes only `self.metrics[name]` for its own name, so
the concurrent batch is modelled as a fold over the proxy entries. -/
def checkProxies (probe : String → ProbeResult) (now : Int) :
    List (String × ServerEntry) → GatewayState → Option GatewayState
  | [], s => some s
  | p :: rest, s =>
    match p.2.stype with
    | none => none
    | some ty =>
      checkProxies probe now rest
        (if ty = "proxy" then checkProxyStep (probe p.1) now s p.1 else s)

/-- `check_server_connections` (lines 85-145): the module pass, then the
proxy batch.  (When invoked with a running event loop the batch is
scheduled with `create_task` and completes asynchronously; the model
represents the state once every probe has resolved.) -/
def check_server_connections (probe : String → ProbeResult) (now : Int)
    (s : GatewayState) : Option GatewayState :=
  match checkModules now s.child_servers s with
  | none => none
  | some s1 => checkProxies probe now s1.child_servers s1

theorem checkModuleStep_child (now : Int) (s : GatewayState) (m : String) :
    (checkModuleStep now s m).child_servers = s.child_servers := by
  unfold checkModuleStep
  cases dictGet (ensureKey s.metrics m (moduleFreshRecord now)) m <;> rfl

theorem checkProxyStep_child (pr : ProbeResult) (now : Int) (s : GatewayState)
    (m : String) : (checkProxyStep pr now s m).child_servers = s.child_servers := by
  unfold checkProxyStep
  cases dictGet (ensureKey s.metrics m {}) m with
  | none => rfl
  | some r =>
    cases pr with
    | ok code => by_cases hc : code = 200 <;> simp [hc]
    | failure => rfl

theorem checkModuleStep_frame (now : Int) (s : GatewayState) (m n : String)
    (h : n ≠ m) :
    dictGet (checkModuleStep now s m).metrics n = dictGet s.metrics n := by
  unfold checkModuleStep
  cases hd : dictGet (ensureKey s.metrics m (moduleFreshRecord now)) m with
  | none => rfl
  | some r =>
    show dictGet (dictSet (ensureKey s.metrics m (moduleFreshRecord now)) m _) n = _
    rw [dictGet_dictSet_ne _ _ _ _ h, dictGet_ensureKey_ne _ _ _ _ h]

theorem checkProxyStep_frame (pr : ProbeResult) (now : Int) (s : GatewayState)
    (m n : String) (h : n ≠ m) :
    dictGet (checkProxyStep pr now s m).metrics n = dictGet s.metrics n := by
  unfold checkProxyStep
  cases hd : dictGet (ensureKey s.metrics m {}) m with
  | none => rfl
  | some r =>
    cases pr with
    | ok code =>
      by_cases hc : code = 200 <;>
        simp [hc, dictGet_dictSet_ne _ _ _ _ h, dictGet_ensureKey_ne _ _ _ _ h]
    | failure =>
      show dictGet (dictSet (ensureKey s.metrics m {}) m _) n = _
      rw [dictGet_dictSet_ne _ _ _ _ h, dictGet_ensureKey_ne _ _ _ _ h]

theorem checkModuleStep_conn (now : Int) (s : GatewayState) (n : String) :
    ∃ r, dictGet (checkModuleStep now s n).metrics n = some r ∧
      r.connection_status = some "connected" := by
  unfold checkModuleStep
  rw [dictGet_ensureKey_self]
  exact ⟨_, dictGet_dictSet_self _ _ _, rfl⟩

theorem checkProxyStep_conn (pr : ProbeResult) (now : Int) (s : GatewayState)
    (n : String) :
    ∃ r, dictGet (checkProxyStep pr now s n).metrics n = some r ∧
      r.connection_status = some (classifyProbe pr) := by
  unfold checkProxyStep
  rw [dictGet_ensureKey_self]
  cases pr with
  | ok code =>
    by_cases hc : code = 200
    · simp only [hc, if_true, classifyProbe]
      exact ⟨_, dictGet_dictSet_self _ _ _, rfl⟩
    · simp only [hc, if_false, classifyProbe]
      exact ⟨_, dictGet_dictSet_self _ _ _, rfl⟩
  | failure => exact ⟨_, dictGet_dictSet_self _ _ _, rfl⟩

theorem checkModules_child (now : Int) :
    ∀ (l : List (String × ServerEntry)) (s s' : GatewayState),
    checkModules now l s = some s' → s'.child_servers = s.child_servers := by
  intro l
  induction l with
  | nil => intro s s' h; cases h; rfl
  | cons p rest ih =>
    intro s s' h
    unfold checkModules at h
    cases hty : p.2.stype with
    | none => rw [hty] at h; dsimp only at h; cases h
    | some ty =>
      rw [hty] at h
      dsimp only at h
      by_cases hm : ty = "module"
      · rw [if_pos hm] at h
        rw [ih _ _ h, checkModuleStep_child]
      · rw [if_neg hm] at h
        exact ih _ _ h

theorem checkProxies_child (probe : String → ProbeResult) (now : Int) :
    ∀ (l : List (String × ServerEntry)) (s s' : GatewayState),
    checkProxies probe now l s = some s' → s'.child_servers = s.child_servers := by
  intro l
  induction l with
  | nil => intro s s' h; cases h; rfl
  | cons p rest ih =>
    intro s s' h
    unfold checkProxies at h
    cases hty : p.2.stype with
    | none => rw [hty] at h; dsimp only at h; cases h
    | some ty =>
      rw [hty] at h
      dsimp only at h
      by_cases hm : ty = "proxy"
      · rw [if_pos hm] at h
        rw [ih _ _ h, checkProxyStep_child]
      · rw [if_neg hm] at h
        exact ih _ _ h

theorem checkModules_total (now : Int) :
    ∀ (l : List (String × ServerEntry)) (s : GatewayState),
    (∀ p ∈ l, (p.2.stype).isSome) →
    ∃ s', checkModules now l s = some s' := by
  intro l
  induction l with
  | nil => intro s _; exact ⟨s, rfl⟩
  | cons p rest ih =>
    intro s hall
    obtain ⟨ty, hty⟩ := Option.isSome_iff_exists.mp (hall p (by simp))
    obtain ⟨s', hs'⟩ := ih (if ty = "module" then checkModuleStep now s p.1 else s)
      (fun q hq => hall q (by simp [hq]))
    refine ⟨s', ?_⟩
    unfold checkModules
    rw [hty]
    exact hs'

theorem checkProxies_total (probe : String → ProbeResult) (now : Int) :
    ∀ (l : List (String × ServerEntry)) (s : GatewayState),
    (∀ p ∈ l, (p.2.stype).isSome) →
    ∃ s', checkProxies probe now l s = some s' := by
  intro l
  induction l with
  | nil => intro s _; exact ⟨s, rfl⟩
  | cons p rest ih =>
    intro s hall
    obtain ⟨ty, hty⟩ := Option.isSome_iff_exists.mp (hall p (by simp))
    obtain ⟨s', hs'⟩ := ih
      (if ty = "proxy" then checkProxyStep (probe p.1) now s p.1 else s)
      (fun q hq => hall q (by simp [hq]))
    refine ⟨s', ?_⟩
    unfold checkProxies
    rw [hty]
    exact hs'

theorem checkModules_frame (now : Int) (n : String) :
    ∀ (l : List (String × ServerEntry)) (s s' : GatewayState),
    checkModules now l s = some s' →
    (∀ p ∈ l, p.1 = n → ¬ p.2.stype = some "module") →
    dictGet s'.metrics n = dictGet s.metrics n := by
  intro l
  induction l with
  | nil => intro s s' h _; cases h; rfl
  | cons p rest ih =>
    intro s s' h hno
    unfold checkModules at h
    cases hty : p.2.stype with
    | none => rw [hty] at h; dsimp only at h; cases h
    | some ty =>
      rw [hty] at h
      dsimp only at h
      by_cases hm : ty = "module"
      · rw [if_pos hm] at h
        have hpn : p.1 ≠ n := by
          intro hh
          exact hno p (by simp) hh (by rw [hty, hm])
        rw [ih _ _ h (fun q hq => hno q (by simp [hq])),
            checkModuleStep_frame now s p.1 n (fun hh => hpn hh.symm)]
      · rw [if_neg hm] at h
        exact ih _ _ h (fun q hq => hno q (by simp [hq]))

theorem checkProxies_frame (probe : String → ProbeResult) (now : Int) (n : String) :
    ∀ (l : List (String × ServerEntry)) (s s' : GatewayState),
    checkProxies probe now l s = some s' →
    (∀ p ∈ l, p.1 = n → ¬ p.2.stype = some "proxy") →
    dictGet s'.metrics n = dictGet s.metrics n := by
  intro l
  induction l with
  | nil => intro s s' h _; cases h; rfl
  | cons p rest ih =>
    intro s s' h hno
    unfold checkProxies at h
    cases hty : p.2.stype with
    | none => rw [hty] at h; dsimp only at h; cases h
    | some ty =>
      rw [hty] at h
      dsimp only at h
      by_cases hm : ty = "proxy"
      · rw [if_pos hm] at h
        have hpn : p.1 ≠ n := by
          intro hh
          exact hno p (by simp) hh (by rw [hty, hm])
        rw [ih _ _ h (fun q hq => hno q (by simp [hq])),
            checkProxyStep_frame (probe p.1) now s p.1 n (fun hh => hpn hh.symm)]
      · rw [if_neg hm] at h
        exact ih _ _ h (fun q hq => hno q (by simp [hq]))

/-- A record at a given name marked "connected" survives the module pass:
every module step either leaves the name alone or re-marks it connected. -/
theorem checkModules_conn_preserved (now : Int) (n : String) :
    ∀ (l : List (String × ServerEntry)) (s s' : GatewayState),
    checkModules now l s = some s' →
    (∃ r, dictGet s.metrics n = some r ∧ r.connection_status = some "connected") →
    ∃ r, dictGet s'.metrics n = some r ∧ r.connection_status = some "connected" := by
  intro l
  induction l with
  | nil => intro s s' h hP; cases h; exact hP
  | cons p rest ih =>
    intro s s' h hP
    unfold checkModules at h
    cases hty : p.2.stype with
    | none => rw [hty] at h; dsimp only at h; cases h
    | some ty =>
      rw [hty] at h
      dsimp only at h
      by_cases hm : ty = "module"
      · rw [if_pos hm] at h
        refine ih _ _ h ?_
        by_cases hpn : p.1 = n
        · subst hpn
          exact checkModuleStep_conn now s p.1
        · obtain ⟨r, hr, hc⟩ := hP
          exact ⟨r, by rw [checkModuleStep_frame now s p.1 n
            (fun hh => hpn hh.symm)]; exact hr, hc⟩
      · rw [if_neg hm] at h
        exact ih _ _ h hP

/-- After the module pass, every module-typed child in the processed list
has a metrics record with `connection_status = "connected"`. -/
theorem checkModules_into_conn (now : Int) (n : String) :
    ∀ (l : List (String × ServerEntry)) (s s' : GatewayState),
    checkModules now l s = some s' →
    (∃ e, (n, e) ∈ l ∧ e.stype = some "module") →
    ∃ r, dictGet s'.metrics n = some r ∧ r.connection_status = some "connected" := by
  intro l
  induction l with
  | nil => intro s s' _ hmem; obtain ⟨e, he, _⟩ := hmem; cases he
  | cons p rest ih =>
    intro s s' h hmem
    unfold checkModules at h
    cases hty : p.2.stype with
    | none => rw [hty] at h; dsimp only at h; cases h
    | some ty =>
      rw [hty] at h
      dsimp only at h
      obtain ⟨e, he, hety⟩ := hmem
      rcases List.mem_cons.mp he with heq | hrest
    -- head is our module entry, or it sits in the tail
      · have hp1 : p.1 = n := by rw [← heq]
        have hp2 : p.2 = e := by rw [← heq]
        have hm : ty = "module" := by
          rw [hp2, hety] at hty
          exact (Option.some.inj hty).symm
        rw [if_pos hm] at h
        refine checkModules_conn_preserved now n rest _ _ h ?_
        rw [hp1]
        exact checkModuleStep_conn now s n
      · by_cases hm : ty = "module"
        · rw [if_pos hm] at h
          exact ih _ _ h ⟨e, hrest, hety⟩
        · rw [if_neg hm] at h
          exact ih _ _ h ⟨e, hrest, hety⟩

/-- Processing a list containing exactly one entry named `n`, proxy-typed,
classifies that child's `connection_status` by its probe outcome. -/
theorem checkProxies_cons_none (probe : String → ProbeResult) (now : Int)
    (p : String × ServerEntry) (rest : List (String × ServerEntry))
    (s : GatewayState) (h : p.2.stype = none) :
    checkProxies probe now (p :: rest) s = none := by
  have heq : checkProxies probe now (p :: rest) s =
      match p.2.stype with
      | none => none
      | some ty => checkProxies probe now rest
          (if ty = "proxy" then checkProxyStep (probe p.1) now s p.1 else s) := rfl
  rw [heq, h]

theorem checkProxies_cons_some (probe : String → ProbeResult) (now : Int)
    (p : String × ServerEntry) (rest : List (String × ServerEntry))
    (s : GatewayState) (ty : String) (h : p.2.stype = some ty) :
    checkProxies probe now (p :: rest) s =
      checkProxies probe now rest
        (if ty = "proxy" then checkProxyStep (probe p.1) now s p.1 else s) := by
  have heq : checkProxies probe now (p :: rest) s =
      match p.2.stype with
      | none => none
      | some ty => checkProxies probe now rest
          (if ty = "proxy" then checkProxyStep (probe p.1) now s p.1 else s) := rfl
  rw [heq, h]

theorem checkProxies_result (probe : String → ProbeResult) (now : Int) (n : String) :
    ∀ (l1 : List (String × ServerEntry)) (l2 : List (String × ServerEntry))
      (e : ServerEntry) (s s' : GatewayState),
    checkProxies probe now (l1 ++ (n, e) :: l2) s = some s' →
    e.stype = some "proxy" →
    (∀ q ∈ l1, q.1 ≠ n) → (∀ q ∈ l2, q.1 ≠ n) →
    ∃ r, dictGet s'.metrics n = some r ∧
      r.connection_status = some (classifyProbe (probe n)) := by
  intro l1
  induction l1 with
  | nil =>
    intro l2 e s s' h hty h1 h2
    rw [List.nil_append,
        checkProxies_cons_some probe now (n, e) l2 s "proxy" hty,
        show (if ("proxy" : String) = "proxy"
            then checkProxyStep (probe (n, e).1) now s (n, e).1 else s) =
          checkProxyStep (probe n) now s n from if_pos rfl] at h
    obtain ⟨r, hr, hc⟩ := checkProxyStep_conn (probe n) now s n
    have hfr : dictGet s'.metrics n =
        dictGet (checkProxyStep (probe n) now s n).metrics n := by
      refine checkProxies_frame probe now n l2 _ s' h ?_
      intro q hq hqn _
      exact h2 q hq hqn
    exact ⟨r, by rw [hfr]; exact hr, hc⟩
  | cons q l1 ih =>
    intro l2 e s s' h hty h1 h2
    rw [List.cons_append] at h
    cases hqt : q.2.stype with
    | none => rw [checkProxies_cons_none probe now q _ s hqt] at h; cases h
    | some ty =>
      rw [checkProxies_cons_some probe now q _ s ty hqt] at h
      exact ih l2 e _ s' h hty (fun p hp => h1 p (by simp [hp])) h2

/-- **C5.** For every invocation of `check_server_connections` on a registry
whose entries all carry a `type` key and whose names are unique: a
proxy-typed child's resulting `connection_status` is "connected" on
HTTP 200, "unhealthy" on any other status code, and "disconnected" on a
timeout or transport failure (the bare `except` catches every probe
exception, so the call itself always completes); a module-typed child is
marked "connected" unconditionally. -/
theorem checkAll_classification
    (probe : String → ProbeResult) (now : Int) (s : GatewayState)
    (l1 l2 : List (String × ServerEntry)) (n : String) (e : ServerEntry)
    (hsplit : s.child_servers = l1 ++ (n, e) :: l2)
    (hall : ∀ p ∈ s.child_servers, (p.2.stype).isSome)
    (h1 : ∀ q ∈ l1, q.1 ≠ n) (h2 : ∀ q ∈ l2, q.1 ≠ n) :
    ∃ s', check_server_connections probe now s = some s' ∧
      (e.stype = some "proxy" →
        ∃ r, dictGet s'.metrics n = some r ∧
          r.connection_status = some (classifyProbe (probe n))) ∧
      (e.stype = some "module" →
        ∃ r, dictGet s'.metrics n = some r ∧
          r.connection_status = some "connected") := by
  obtain ⟨s1, hm⟩ := checkModules_total now s.child_servers s hall
  have hch : s1.child_servers = s.child_servers := checkModules_child now _ _ _ hm
  obtain ⟨s', hp⟩ := checkProxies_total probe now s1.child_servers s1
    (by rw [hch]; exact hall)
  refine ⟨s', ?_, ?_, ?_⟩
  · unfold check_server_connections
    rw [hm]
    exact hp
  · intro hty
    have hp' : checkProxies probe now (l1 ++ (n, e) :: l2) s1 = some s' := by
      rw [← hsplit, ← hch]; exact hp
    exact checkProxies_result probe now n l1 l2 e s1 s' hp' hty h1 h2
  · intro hty
    have hPn : ∃ r, dictGet s1.metrics n = some r ∧
        r.connection_status = some "connected" := by
      refine checkModules_into_conn now n s.child_servers s s1 hm ⟨e, ?_, hty⟩
      rw [hsplit]
      exact List.mem_append_right _ (List.mem_cons_self _ _)
    obtain ⟨r, hr, hc⟩ := hPn
    have hfr : dictGet s'.metrics n = dictGet s1.metrics n := by
      refine checkProxies_frame probe now n s1.child_servers s1 s' hp ?_
      intro q hq hqn
      rw [hch, hsplit] at hq
      rcases List.mem_append.mp hq with hql | hqr
      · exact absurd hqn (h1 q hql)
      · rcases List.mem_cons.mp hqr with hqe | hql2
        · subst hqe
          dsimp only
          rw [hty]
          exact fun hcontra => absurd (Option.some.inj hcontra) (by decide)
        · exact absurd hqn (h2 q hql2)
    exact ⟨r, by rw [hfr]; exact hr, hc⟩

/-- A module child used by the prober witnesses. -/
def eM : ServerEntry :=
  { name := some "m1", stype := some "module", pfx := some "m" }

/-- A second proxy child used by the prober witnesses. -/
def eP2 : ServerEntry :=
  { name := some "p1", stype := some "proxy", pfx := some "q",
    url := some "http://q/mcp" }

/-- A gateway with one module child and one proxy child. -/
def sTwo : GatewayState := { child_servers := [("m1", eM), ("p1", eP2)] }

/-- Witness for `checkAll_classification`: probing `sTwo` with every probe
timing out classifies the proxy child by `classifyProbe .failure`
("disconnected") and the module child as "connected". -/
theorem checkAll_classification_witness :
    ∃ s', check_server_connections (fun _ => ProbeResult.failure) 100 sTwo
        = some s' ∧
      (eP2.stype = some "proxy" →
        ∃ r, dictGet s'.metrics "p1" = some r ∧
          r.connection_status =
            some (classifyProbe ((fun _ => ProbeResult.failure) "p1"))) ∧
      (eP2.stype = some "module" →
        ∃ r, dictGet s'.metrics "p1" = some r ∧
          r.connection_status = some "connected") :=
  checkAll_classification (fun _ => ProbeResult.failure) 100 sTwo
    [("m1", eM)] [] "p1" eP2 rfl (by decide) (by decide) (by decide)

/-! ## `/status` endpoint (lines 229-259) and the C10 key invariant -/

/-- The per-server block of the `/status` handler (lines 234-246), reduced
to its only fallible part: when the child has a metrics record,
`state.metrics[name]["request_count"]` is read unconditionally (line 244) —
`none` models the `KeyError` when that key is absent — and, when positive,
`state.metrics[name]["total_latency"]` is read for the average (line 245).
The float average is abstracted as the exact pair
(total_latency, request_count). -/
def statusEntryFor (s : GatewayState) (name : String) :
    Option (Option (Int × Nat)) :=
  match dictGet s.metrics name with
  | none => some none
  | some r =>
    match r.request_count with
    | none => none
    | some rc =>
      if rc > 0 then
        match r.total_latency with
        | none => none
        | some tl => some (some (tl, rc))
      else some none

/-- The `/status` handler's loop over `state.child_servers` (lines 232-248):
`none` models an uncaught `KeyError` from any child's block. -/
def statusEntries (s : GatewayState) :
    List (String × ServerEntry) → Option (List (String × Option (Int × Nat)))
  | [] => some []
  | p :: rest =>
    match statusEntryFor s p.1 with
    | none => none
    | some avg =>
      match statusEntries s rest with
      | none => none
      | some l => some ((p.1, avg) :: l)

/-- `GET /status` (lines 229-259), reduced to its per-child average-latency
payload. -/
def statusEndpoint (s : GatewayState) :
    Option (List (String × Option (Int × Nat))) :=
  statusEntries s s.child_servers

/-- The all-200 probe oracle. -/
def probeAll200 : String → ProbeResult := fun _ => ProbeResult.ok 200

/-- **C10.** The claimed invariant — every metrics record always carries
`request_count`, `error_count` and `total_latency` — is violated by the
code: `check_proxy` creates `self.metrics[name] = {}` (an empty record) for
a probed proxy child with no prior metrics and then assigns only
`connection_status`/`last_check`.  On the one-proxy gateway `sProxyOne`,
after one `check_server_connections` whose probe answers 200: the record
exists but `request_count` is missing, `GET /status` raises `KeyError` at
line 244, and `update_metrics` raises `KeyError` at line 68. -/
theorem checkAll_partial_record_breaks_status :
    (check_server_connections probeAll200 100 sProxyOne).bind
        (fun s1 => (dictGet s1.metrics "p").map
          (fun r => r.request_count)) = some none ∧
    (check_server_connections probeAll200 100 sProxyOne).bind
        (fun s1 => statusEndpoint s1) = none ∧
    (check_server_connections probeAll200 100 sProxyOne).bind
        (fun s1 => s1.update_metrics "p" 5 "healthy" 200) = none := by
  exact ⟨rfl, rfl, rfl⟩

/-! ## Connection tracker (`LoggingMiddleware`, lines 476-517) and idle
pruning (`ui.py`, `make_info_panel` lines 233-243) -/

/-- The connection-tracking block of `LoggingMiddleware.__call__`
(gateway_server.py lines 493-501): on a POST to the primary ingress path
"/mcp", the client's record is rewritten wholesale —
`"connected_at": utc_now().isoformat()` and `"last_seen": utc_now()...`
are both set to the current time, and `"requests"` becomes
`state.active_connections.get(client_addr, {}).get("requests", 0) + 1`.
Any other path or method leaves the map untouched. -/
def trackConnection (s : GatewayState) (client_addr : String)
    (path method : String) (now : Int) : GatewayState :=
  if path = "/mcp" ∧ method = "POST" then
    { s with
      active_connections := dictSet s.active_connections client_addr
        { connected_at := now, last_seen := now,
          requests := (((dictGet s.active_connections client_addr).map
            (fun c => c.requests)).getD 0) + 1 } }
  else s

/-- **C8 (counterexample).** Two ingress requests from the same address at
times 0 and 100: after the second, `connected_at` is 100, not the
creation-time 0 the claim requires. -/
theorem connected_at_reset_on_second_request :
    dictGet (trackConnection
        (trackConnection initialState "1.2.3.4:50000" "/mcp" "POST" 0)
        "1.2.3.4:50000" "/mcp" "POST" 100).active_connections "1.2.3.4:50000"
      = some { connected_at := 100, last_seen := 100, requests := 2 } ∧
    (100 : Int) ≠ 0 := by
  exact ⟨rfl, by decide⟩

/-- **C8 (amended).** Every request to the primary ingress path rewrites
the client's `ActiveConnection` record wholesale: `connected_at` is NOT
fixed at creation but reset, together with `last_seen`, to the current
time, and `requests` becomes the previous count (0 on first sight) plus
one. -/
theorem track_connection_overwrites (s : GatewayState) (addr : String)
    (now : Int) :
    dictGet (trackConnection s addr "/mcp" "POST" now).active_connections addr
      = some { connected_at := now, last_seen := now,
               requests := (((dictGet s.active_connections addr).map
                 (fun c => c.requests)).getD 0) + 1 } := by
  unfold trackConnection
  rw [if_pos ⟨rfl, rfl⟩]
  exact dictGet_dictSet_self _ _ _

/-- The idle-connection cleanup run by the dashboard before enumerating the
active-connection set (ui.py lines 233-243): every record whose
`last_seen` lies more than 30 seconds before `now` is deleted; the rest
survive unchanged and form the snapshot (counted by `make_header`,
ui.py line 108). -/
def pruneIdleConnections (now : Int)
    (conns : List (String × ConnectionRecord)) :
    List (String × ConnectionRecord) :=
  conns.filter (fun p => decide (now - p.2.last_seen ≤ 30))

/-- **C7.** Whenever the active-connection set is enumerated for a
snapshot, every connection in the snapshot was seen within the 30-second
idle window (so one unseen for 31 seconds is absent), and every connection
seen within the window — e.g. 10 seconds ago — survives into the snapshot
unchanged: a connection observed within the idle window is never pruned. -/
theorem idle_pruning_snapshot (now : Int)
    (conns : List (String × ConnectionRecord)) :
    (∀ p ∈ pruneIdleConnections now conns, now - p.2.last_seen ≤ 30) ∧
    (∀ p ∈ conns, now - p.2.last_seen ≤ 30 →
      p ∈ pruneIdleConnections now conns) := by
  constructor
  · intro p hp
    have := List.mem_filter.mp hp
    simpa using this.2
  · intro p hp hle
    exact List.mem_filter.mpr ⟨hp, by simpa using hle⟩

/-- Sample connection map: "a" last seen 31 seconds before time 100,
"b" seen 10 seconds before. -/
def conns0 : List (String × ConnectionRecord) :=
  [("a", { connected_at := 0, last_seen := 69, requests := 1 }),
   ("b", { connected_at := 0, last_seen := 90, requests := 2 })]

/-- Witness for `idle_pruning_snapshot`: at time 100 the 31-seconds-idle
connection "a" is absent from the snapshot and the 10-seconds-idle "b" is
present. -/
theorem idle_pruning_snapshot_witness :
    ("b", ({ connected_at := 0, last_seen := 90, requests := 2 } :
        ConnectionRecord)) ∈ pruneIdleConnections 100 conns0 ∧
    ("a", ({ connected_at := 0, last_seen := 69, requests := 1 } :
        ConnectionRecord)) ∉ pruneIdleConnections 100 conns0 :=
  ⟨(idle_pruning_snapshot 100 conns0).2 _ (by decide) (by decide),
   fun hmem => absurd ((idle_pruning_snapshot 100 conns0).1 _ hmem) (by decide)⟩

end Gateway
